import Mathlib

/-!
# Verification of the Social-RAG trend/virality/retrieval core

Shallow embedding of the scoring, trend-aggregation and retrieval functions of
the Social-RAG repository, together with proofs of the specified properties.

Conventions of the embedding:
* JavaScript numbers are modelled by `ℚ` (all arithmetic appearing in the
  embedded code is exact rational arithmetic); engagement counts, list lengths
  and other counters are `ℕ`; millisecond timestamps are `ℤ`.
* `Math.min` / `Math.max` become `min` / `max` on `ℚ`.
* External collaborators (the lexicon library, the post/trend stores, the
  generative-text proxy, the wall clock) are passed in explicitly as data.
-/

/-! ## Data model (from `src/types/social-media.ts`) -/

/-- Sentiment label enumeration: `'positive' | 'negative' | 'neutral' | 'mixed'`. -/
inductive SentimentLabel
  | positive
  | negative
  | neutral
  | mixed
deriving DecidableEq, Repr

/-- The six emotion intensities of `SentimentAnalysis.emotions`. -/
structure Emotions where
  joy : ℚ
  sadness : ℚ
  anger : ℚ
  fear : ℚ
  surprise : ℚ
  disgust : ℚ
deriving DecidableEq, Repr

/-- `SentimentAnalysis` record. -/
structure SentimentAnalysis where
  score : ℚ
  magnitude : ℚ
  label : SentimentLabel
  emotions : Emotions
  confidence : ℚ
deriving DecidableEq, Repr

/-- Engagement counts of a post (`views` is optional in the source). -/
structure Engagement where
  likes : ℕ
  shares : ℕ
  comments : ℕ
  views : Option ℕ := none
deriving DecidableEq, Repr

/-- Post metadata used by the virality scorer. -/
structure Metadata where
  hashtags : List String
  mentions : List String
  urls : List String
  language : String
deriving DecidableEq, Repr

/-! ## Virality scorer (from `src/services/virality-analysis.ts`) -/

/-- Embeds `calculateContentScore(metadata)`: additive content score from
hashtag count (≤ 0.3), mention count (≤ 0.2), URL presence (0.1) and the
English-language flag (0.1), capped at 1. -/
def calculateContentScore (metadata : Metadata) : ℚ :=
  let score : ℚ := 0
  let score := if metadata.hashtags.length > 0 then
    score + min ((3 : ℚ)/10) ((metadata.hashtags.length : ℚ) * (1/10)) else score
  let score := if metadata.mentions.length > 0 then
    score + min ((2 : ℚ)/10) ((metadata.mentions.length : ℚ) * (5/100)) else score
  let score := if metadata.urls.length > 0 then score + 1/10 else score
  let score := if metadata.language = "en" then score + 1/10 else score
  min 1 score

/-- Embeds `calculateViralityScore(engagement, sentiment, metadata)`: the
weighted sum of the engagement, share-velocity, sentiment and content terms,
clamped to [0,1]. -/
def calculateViralityScore (engagement : Engagement) (sentiment : SentimentAnalysis)
    (metadata : Metadata) : ℚ :=
  let score : ℚ := 0
  let totalEngagement : ℕ := engagement.likes + engagement.shares + engagement.comments
  let engagementScore : ℚ := min 1 ((totalEngagement : ℚ) / 10000)
  let score := score + engagementScore * (4/10)
  let shareVelocity : ℚ := (engagement.shares : ℚ) / ((max 1 engagement.likes : ℕ) : ℚ)
  let velocityScore : ℚ := min 1 (shareVelocity / (5/10))
  let score := score + velocityScore * (25/100)
  let sentimentScore : ℚ :=
    if sentiment.label = .positive then 8/10
    else if sentiment.label = .negative then 6/10 else 4/10
  let score := score + sentimentScore * (2/10)
  let contentScore := calculateContentScore metadata
  let score := score + contentScore * (15/100)
  min 1 (max 0 score)

/-- The accumulated content score equals the direct sum of its four
conditional contributions, capped at 1. -/
theorem contentScore_eq (m : Metadata) :
    calculateContentScore m =
      min 1 ((if m.hashtags.length > 0 then
                min (3/10) ((m.hashtags.length : ℚ) * (1/10)) else 0)
             + (if m.mentions.length > 0 then
                min (2/10) ((m.mentions.length : ℚ) * (5/100)) else 0)
             + (if m.urls.length > 0 then (1/10 : ℚ) else 0)
             + (if m.language = "en" then (1/10 : ℚ) else 0)) := by
  unfold calculateContentScore
  refine congrArg (min 1) ?_
  split_ifs <;> ring

/-- C1: `calculateViralityScore` returns exactly the weighted sum
0.4·engagement + 0.25·share-velocity + 0.2·sentiment + 0.15·content
described by the spec, clamped to [0,1], with the content term the capped sum
of the hashtag, mention, URL and language contributions. -/
theorem calculateViralityScore_formula (e : Engagement) (s : SentimentAnalysis)
    (m : Metadata) :
    calculateViralityScore e s m =
      min 1 (max 0 (
        (4/10) * min 1 (((e.likes + e.shares + e.comments : ℕ) : ℚ) / 10000)
        + (25/100) * min 1 (((e.shares : ℚ) / ((max 1 e.likes : ℕ) : ℚ)) / (5/10))
        + (2/10) * (if s.label = .positive then 8/10
                    else if s.label = .negative then 6/10 else 4/10)
        + (15/100) * min 1
            ((if m.hashtags.length > 0 then
                min (3/10) ((m.hashtags.length : ℚ) * (1/10)) else 0)
             + (if m.mentions.length > 0 then
                min (2/10) ((m.mentions.length : ℚ) * (5/100)) else 0)
             + (if m.urls.length > 0 then (1/10 : ℚ) else 0)
             + (if m.language = "en" then (1/10 : ℚ) else 0)))) := by
  unfold calculateViralityScore
  rw [contentScore_eq]
  refine congrArg (fun x => min 1 (max 0 x)) ?_
  ring

/-- Restatement of `calculateViralityScore` as a single weighted sum,
shared by the proofs below. -/
theorem calculateViralityScore_weighted (e : Engagement) (s : SentimentAnalysis)
    (m : Metadata) :
    calculateViralityScore e s m =
      min 1 (max 0 (
        (4/10) * min 1 (((e.likes + e.shares + e.comments : ℕ) : ℚ) / 10000)
        + (25/100) * min 1 (((e.shares : ℚ) / ((max 1 e.likes : ℕ) : ℚ)) / (5/10))
        + (2/10) * (if s.label = .positive then 8/10
                    else if s.label = .negative then 6/10 else 4/10)
        + (15/100) * calculateContentScore m)) := by
  unfold calculateViralityScore
  refine congrArg (fun x => min 1 (max 0 x)) ?_
  ring

/-- The content score never exceeds 0.7 = 0.3 + 0.2 + 0.1 + 0.1. -/
theorem contentScore_le (m : Metadata) : calculateContentScore m ≤ 7/10 := by
  rw [contentScore_eq]
  have h1 := min_le_left ((3 : ℚ)/10) ((m.hashtags.length : ℚ) * (1/10))
  have h2 := min_le_left ((2 : ℚ)/10) ((m.mentions.length : ℚ) * (5/100))
  refine le_trans (min_le_right _ _) ?_
  split_ifs <;> linarith

/-- C8: the virality score is at most 0.915, so the clamp at 1 is never
attained. -/
theorem calculateViralityScore_le_915 (e : Engagement) (s : SentimentAnalysis)
    (m : Metadata) :
    calculateViralityScore e s m ≤ 915/1000 ∧ calculateViralityScore e s m < 1 := by
  have key : ∀ E V S C : ℚ, E ≤ 1 → V ≤ 1 → S ≤ 8/10 → C ≤ 7/10 →
      min 1 (max 0 ((4/10)*E + (25/100)*V + (2/10)*S + (15/100)*C)) ≤ 915/1000 := by
    intro E V S C hE hV hS hC
    exact le_trans (min_le_right _ _) (max_le (by norm_num) (by linarith))
  have h915 : calculateViralityScore e s m ≤ 915/1000 := by
    rw [calculateViralityScore_weighted]
    exact key _ _ _ _ (min_le_left _ _) (min_le_left _ _)
      (by split_ifs <;> norm_num) (contentScore_le m)
  exact ⟨h915, lt_of_le_of_lt h915 (by norm_num)⟩

/-- C2: the virality score always lies in the closed interval [0,1]. -/
theorem calculateViralityScore_bounded (e : Engagement) (s : SentimentAnalysis)
    (m : Metadata) :
    0 ≤ calculateViralityScore e s m ∧ calculateViralityScore e s m ≤ 1 := by
  unfold calculateViralityScore
  constructor
  · exact le_min (by norm_num) (le_max_left 0 _)
  · exact min_le_left 1 _

/-! ## Sentiment scorer (from the sentiment-analysis service file)

The `sentiment` npm library is an external dependency; its `analyze` call is
modelled by a function `rawAnalyze : String → Option ℤ` returning the raw
lexical score, with `none` standing for a thrown exception (the `catch`
branch of the source). -/

/-- JavaScript `toLowerCase()`, modelled character-wise (ASCII). -/
def jsToLower (s : String) : String := ⟨s.data.map Char.toLower⟩

/-- A JavaScript `\w` word character: `[A-Za-z0-9_]`. -/
def isWordChar (c : Char) : Bool := c.isAlphanum || c = '_'

/-- Maximal runs of word characters of a character list; `\bword\b` regex
matches of a pure-word pattern are exactly the runs equal to the pattern. -/
def wordRunsAux : List Char → List Char → List (List Char)
  | [], cur => if cur.isEmpty then [] else [cur.reverse]
  | c :: cs, cur =>
    if isWordChar c then wordRunsAux cs (c :: cur)
    else if cur.isEmpty then wordRunsAux cs []
    else cur.reverse :: wordRunsAux cs []

/-- All maximal word-character runs of a string's characters. -/
def wordRuns (l : List Char) : List (List Char) := wordRunsAux l []

/-- Embeds `calculateEmotionScore(text, emotionWords)`: total count of
whole-word occurrences of the emotion keywords, divided by 5 and capped
at 1. -/
def calculateEmotionScore (text : String) (emotionWords : List String) : ℚ :=
  let score : ℕ := (emotionWords.map (fun w => (wordRuns text.data).count w.data)).sum
  min 1 ((score : ℚ) / 5)

/-- Embeds `analyzeEmotions(text)`: keyword matching per emotion category. -/
def analyzeEmotions (text : String) : Emotions :=
  let lowerText := jsToLower text
  let joyWords := ["happy", "joy", "excited", "great", "amazing", "wonderful",
    "love", "lol", "haha"]
  let sadnessWords := ["sad", "depressed", "crying", "miss", "lost", "alone", "hurt"]
  let angerWords := ["angry", "mad", "hate", "furious", "rage", "annoyed", "fuck"]
  let fearWords := ["scared", "afraid", "terrified", "worried", "anxious", "panic"]
  let surpriseWords := ["wow", "omg", "unexpected", "shocked", "surprised", "amazing"]
  let disgustWords := ["disgusting", "gross", "nasty", "awful", "terrible"]
  { joy := calculateEmotionScore lowerText joyWords
    sadness := calculateEmotionScore lowerText sadnessWords
    anger := calculateEmotionScore lowerText angerWords
    fear := calculateEmotionScore lowerText fearWords
    surprise := calculateEmotionScore lowerText surpriseWords
    disgust := calculateEmotionScore lowerText disgustWords }

/-- The neutral default returned by the `catch` branch of `analyzeSentiment`. -/
def sentimentNeutralDefault : SentimentAnalysis :=
  { score := 0
    magnitude := 0
    label := .neutral
    emotions := { joy := 0, sadness := 0, anger := 0, fear := 0, surprise := 0,
                  disgust := 0 }
    confidence := 5/10 }

/-- Embeds `analyzeSentiment(text)`, with the external lexicon call abstracted
as `rawAnalyze` returning the raw lexical score, a JS number (`none` = the
library threw, taking the `catch` branch). -/
def analyzeSentiment (rawAnalyze : String → Option ℚ) (text : String) :
    SentimentAnalysis :=
  match rawAnalyze text with
  | none => sentimentNeutralDefault
  | some rawScore =>
    let score : ℚ := max (-1) (min 1 (rawScore / 10))
    let label : SentimentLabel :=
      if score > 1/10 then .positive
      else if score < -(1/10) then .negative
      else .neutral
    let emotions := analyzeEmotions text
    let confidence : ℚ := min (95/100) (max (5/10) (|score| * (8/10) + 2/10))
    { score := score
      magnitude := |rawScore|
      label := label
      emotions := emotions
      confidence := confidence }

/-- The emotion analysis of the empty string is identically zero. -/
theorem analyzeEmotions_empty : analyzeEmotions "" = ⟨0, 0, 0, 0, 0, 0⟩ := by
  norm_num [analyzeEmotions, calculateEmotionScore, wordRuns, wordRunsAux,
    jsToLower, min_def]

/-- C6: `analyzeSentiment` is total: an internal error yields the neutral
default, the empty string with raw lexical score 0 yields the neutral default
with confidence 0.5, and the confidence always lies in [0.5, 0.95]. -/
theorem analyzeSentiment_total (rawAnalyze : String → Option ℚ) (text : String) :
    (rawAnalyze text = none →
      analyzeSentiment rawAnalyze text = sentimentNeutralDefault)
    ∧ 5/10 ≤ (analyzeSentiment rawAnalyze text).confidence
    ∧ (analyzeSentiment rawAnalyze text).confidence ≤ 95/100
    ∧ (rawAnalyze "" = some 0 →
      analyzeSentiment rawAnalyze "" = sentimentNeutralDefault) := by
  refine ⟨fun h => by simp [analyzeSentiment, h], ?_, ?_, fun h => ?_⟩
  · cases hraw : rawAnalyze text with
    | none => simp [analyzeSentiment, hraw, sentimentNeutralDefault]
    | some r =>
      simp only [analyzeSentiment, hraw]
      exact le_min (by norm_num) (le_max_left _ _)
  · cases hraw : rawAnalyze text with
    | none => norm_num [analyzeSentiment, hraw, sentimentNeutralDefault]
    | some r =>
      simp only [analyzeSentiment, hraw]
      exact min_le_left _ _
  · simp only [analyzeSentiment, h, analyzeEmotions_empty]
    norm_num [sentimentNeutralDefault, min_def, max_def, abs]

/-- Stub for the external lexicon used by the C6 witness: raw score 0 on the
empty string, a thrown exception on anything else. -/
def rawLexiconStub : String → Option ℚ := fun s => if s = "" then some 0 else none

/-- Witness for C6 at concrete inputs. -/
theorem analyzeSentiment_total_witness :
    analyzeSentiment rawLexiconStub "x" = sentimentNeutralDefault
    ∧ analyzeSentiment rawLexiconStub "" = sentimentNeutralDefault
    ∧ 5/10 ≤ (analyzeSentiment rawLexiconStub "").confidence :=
  ⟨(analyzeSentiment_total rawLexiconStub "x").1 (by simp [rawLexiconStub]),
   (analyzeSentiment_total rawLexiconStub "").2.2.2 (by simp [rawLexiconStub]),
   (analyzeSentiment_total rawLexiconStub "").2.1⟩

/-! ## Trend aggregator (from `src/services/trend-analysis.ts`)

The post store fetch (`getRecentPosts`) and the topic grouping are external
to the per-group analysis verified here; `identifyTrends` is embedded on the
already-formed topic groups (the `Object.entries(topicGroups)` list). A
post's id, author, platform, content and metadata, and a Trend's related
topics, influencers, timeline, virality factors, category and generated
ids/timestamps are not constrained by the verified properties and are
elided from the records. -/

/-- The fields of a stored post read by the verified services: id, content,
millisecond timestamp, engagement counts, metadata, the sentiment annotation
and the virality score (author, platform and created/updated timestamps are
elided). -/
structure SocialMediaPost where
  id : String
  content : String
  timestamp : ℤ
  engagement : Engagement
  metadata : Metadata
  sentiment : SentimentAnalysis
  viralityScore : ℚ
deriving DecidableEq, Repr

/-- `Trend.metrics`. -/
structure TrendMetrics where
  mentions : ℕ
  engagement : ℕ
  reach : ℕ
  growthRate : ℚ
  velocity : ℚ
deriving DecidableEq, Repr

/-- `Trend.sentiment`: the label fractions plus the majority overall label. -/
structure SentimentDistribution where
  positive : ℚ
  negative : ℚ
  neutral : ℚ
  overall : SentimentLabel
deriving DecidableEq, Repr

/-- A Trend (fields constrained by the verified properties). -/
structure Trend where
  topic : String
  metrics : TrendMetrics
  sentiment : SentimentDistribution
deriving DecidableEq, Repr

/-- Embeds `calculateTrendMetrics(posts)`. `timeSpan` subtracts the last
post's timestamp from the first's (the fetch returns newest first); the
group reaching this code is non-empty, so the `getD 0` defaults are inert. -/
def calculateTrendMetrics (posts : List SocialMediaPost) : TrendMetrics :=
  let totalMentions := posts.length
  let totalEngagement := posts.foldl (fun sum post =>
    sum + post.engagement.likes + post.engagement.shares + post.engagement.comments)
    (0 : ℕ)
  let totalReach := posts.foldl (fun sum post => sum + post.engagement.views.getD 0)
    (0 : ℕ)
  let timeSpan : ℤ :=
    ((posts.head?.map (·.timestamp)).getD 0) - ((posts.getLast?.map (·.timestamp)).getD 0)
  let hoursSpan : ℚ := (timeSpan : ℚ) / (1000 * 60 * 60)
  let growthRate : ℚ := (totalMentions : ℚ) / max 1 hoursSpan
  let velocity : ℚ := (totalEngagement : ℚ) / max 1 hoursSpan
  { mentions := totalMentions
    engagement := totalEngagement
    reach := totalReach
    growthRate := growthRate
    velocity := velocity }

/-- Body of the counting loop of `analyzeSentimentDistribution`: the
`switch` increments positive, negative, or (default) neutral. -/
def sentimentTally (c : ℕ × ℕ × ℕ) (post : SocialMediaPost) : ℕ × ℕ × ℕ :=
  match post.sentiment.label with
  | .positive => (c.1 + 1, c.2.1, c.2.2)
  | .negative => (c.1, c.2.1 + 1, c.2.2)
  | _ => (c.1, c.2.1, c.2.2 + 1)

/-- Embeds `analyzeSentimentDistribution(posts)`. -/
def analyzeSentimentDistribution (posts : List SocialMediaPost) :
    SentimentDistribution :=
  let counts := posts.foldl sentimentTally (0, 0, 0)
  let positive := counts.1
  let negative := counts.2.1
  let neutral := counts.2.2
  let total := posts.length
  let overall : SentimentLabel :=
    if positive > negative then .positive
    else if negative > positive then .negative
    else .neutral
  { positive := (positive : ℚ) / (total : ℚ)
    negative := (negative : ℚ) / (total : ℚ)
    neutral := (neutral : ℚ) / (total : ℚ)
    overall := overall }

/-- Embeds the deterministic core of `analyzeTrend(topic, posts)` (the
`try` body never throws on the embedded fields, so the `null` branch is
unreachable). -/
def analyzeTrend (topic : String) (posts : List SocialMediaPost) : Trend :=
  { topic := topic
    metrics := calculateTrendMetrics posts
    sentiment := analyzeSentimentDistribution posts }

/-- Embeds `isSignificantTrend(trend)`. -/
def isSignificantTrend (trend : Trend) : Prop :=
  10 ≤ trend.metrics.mentions ∧ (100 : ℚ) ≤ trend.metrics.velocity
    ∧ (2 : ℚ) ≤ trend.metrics.growthRate

instance (trend : Trend) : Decidable (isSignificantTrend trend) := by
  unfold isSignificantTrend; infer_instance

/-- Descending insertion by velocity, modelling
`trends.sort((a, b) => b.metrics.velocity - a.metrics.velocity)`. -/
def insertByVelocity (t : Trend) : List Trend → List Trend
  | [] => [t]
  | u :: us =>
    if t.metrics.velocity > u.metrics.velocity then t :: u :: us
    else u :: insertByVelocity t us

/-- Sort a trend list by descending velocity. -/
def sortByVelocityDesc (l : List Trend) : List Trend := l.foldr insertByVelocity []

/-- The `trends` array accumulated by the loop of `identifyTrends`: groups
of at least 5 posts whose analyzed trend passes the significance filter. -/
def trendCandidates (topicGroups : List (String × List SocialMediaPost)) :
    List Trend :=
  topicGroups.foldr (fun g acc =>
    if 5 ≤ g.2.length then
      let trend := analyzeTrend g.1 g.2
      if isSignificantTrend trend then trend :: acc else acc
    else acc) []

/-- Embeds `identifyTrends` from the topic groups onward: filter by group
size and significance, then sort by descending velocity. -/
def identifyTrends (topicGroups : List (String × List SocialMediaPost)) :
    List Trend :=
  sortByVelocityDesc (trendCandidates topicGroups)

/-- Membership is invariant under the descending insertion. -/
theorem mem_insertByVelocity (t x : Trend) (l : List Trend) :
    x ∈ insertByVelocity t l ↔ x = t ∨ x ∈ l := by
  induction l with
  | nil => simp [insertByVelocity]
  | cons u us ih =>
    simp only [insertByVelocity]
    split <;> simp [ih] <;> tauto

/-- Membership is invariant under the velocity sort. -/
theorem mem_sortByVelocityDesc (x : Trend) (l : List Trend) :
    x ∈ sortByVelocityDesc l ↔ x ∈ l := by
  induction l with
  | nil => simp [sortByVelocityDesc]
  | cons t ts ih =>
    simp only [sortByVelocityDesc, List.foldr_cons] at *
    rw [mem_insertByVelocity, ih, List.mem_cons]

/-- C3: every trend returned by `identifyTrends` passes both gates: it stems
from a topic group of at least 5 posts, and its metrics satisfy
mentions ≥ 10, velocity ≥ 100 and growthRate ≥ 2; groups of fewer than 5
posts, or failing any significance condition, produce nothing. -/
theorem identifyTrends_gates (topicGroups : List (String × List SocialMediaPost))
    (t : Trend) (ht : t ∈ identifyTrends topicGroups) :
    (10 ≤ t.metrics.mentions ∧ (100 : ℚ) ≤ t.metrics.velocity
      ∧ (2 : ℚ) ≤ t.metrics.growthRate)
    ∧ ∃ g ∈ topicGroups, 5 ≤ g.2.length ∧ t = analyzeTrend g.1 g.2 := by
  rw [identifyTrends, mem_sortByVelocityDesc] at ht
  induction topicGroups with
  | nil => simp [trendCandidates] at ht
  | cons g gs ih =>
    simp only [trendCandidates, List.foldr_cons] at ht
    by_cases h5 : 5 ≤ g.2.length
    · rw [if_pos h5] at ht
      by_cases hsig : isSignificantTrend (analyzeTrend g.1 g.2)
      · rw [if_pos hsig] at ht
        rcases List.mem_cons.mp ht with heq | hmem
        · subst heq
          exact ⟨hsig, g, List.mem_cons_self g gs, h5, rfl⟩
        · obtain ⟨hgates, g', hg', hrest⟩ := ih hmem
          exact ⟨hgates, g', List.mem_cons_of_mem g hg', hrest⟩
      · rw [if_neg hsig] at ht
        obtain ⟨hgates, g', hg', hrest⟩ := ih ht
        exact ⟨hgates, g', List.mem_cons_of_mem g hg', hrest⟩
    · rw [if_neg h5] at ht
      obtain ⟨hgates, g', hg', hrest⟩ := ih ht
      exact ⟨hgates, g', List.mem_cons_of_mem g hg', hrest⟩

/-- A concrete post for the trend witnesses: 20 likes, positively labeled,
posted at epoch 0. -/
def trendPost : SocialMediaPost :=
  { id := "p1"
    content := ""
    timestamp := 0
    engagement := { likes := 20, shares := 0, comments := 0, views := none }
    metadata := { hashtags := [], mentions := [], urls := [], language := "" }
    sentiment := { sentimentNeutralDefault with label := .positive }
    viralityScore := 0 }

/-- A topic group of 10 identical posts (200 total engagement in a span of
0 hours: mentions 10, velocity 200, growthRate 10). -/
def trendGroupPosts : List SocialMediaPost := List.replicate 10 trendPost

/-- Witness for C3: the 10-post group passes both gates and its trend is
returned. -/
theorem identifyTrends_gates_witness :
    analyzeTrend "topic" trendGroupPosts ∈ identifyTrends [("topic", trendGroupPosts)]
    ∧ ((10 ≤ (analyzeTrend "topic" trendGroupPosts).metrics.mentions
        ∧ (100 : ℚ) ≤ (analyzeTrend "topic" trendGroupPosts).metrics.velocity
        ∧ (2 : ℚ) ≤ (analyzeTrend "topic" trendGroupPosts).metrics.growthRate)
      ∧ ∃ g ∈ [("topic", trendGroupPosts)], 5 ≤ g.2.length
          ∧ analyzeTrend "topic" trendGroupPosts = analyzeTrend g.1 g.2) := by
  have hmem : analyzeTrend "topic" trendGroupPosts ∈
      identifyTrends [("topic", trendGroupPosts)] := by
    have hsig : isSignificantTrend (analyzeTrend "topic" trendGroupPosts) := by
      norm_num [isSignificantTrend, analyzeTrend, calculateTrendMetrics,
        trendGroupPosts, trendPost, List.replicate, max_def]
    have hlen : 5 ≤ trendGroupPosts.length := by norm_num [trendGroupPosts]
    simp [identifyTrends, trendCandidates, sortByVelocityDesc, insertByVelocity,
      hlen, hsig]
  exact ⟨hmem, identifyTrends_gates [("topic", trendGroupPosts)] _ hmem⟩

/-- The counting loop accumulates, on top of its initial state, the counts of
positive posts, negative posts and everything else. -/
theorem sentimentTally_foldl (posts : List SocialMediaPost) (c : ℕ × ℕ × ℕ) :
    posts.foldl sentimentTally c =
      (c.1 + posts.countP (fun p => decide (p.sentiment.label = .positive)),
       c.2.1 + posts.countP (fun p => decide (p.sentiment.label = .negative)),
       c.2.2 + posts.countP (fun p =>
         decide (p.sentiment.label ≠ .positive ∧ p.sentiment.label ≠ .negative))) := by
  induction posts generalizing c with
  | nil => simp
  | cons p ps ih =>
    rw [List.foldl_cons, ih]
    cases hl : p.sentiment.label <;>
      simp [sentimentTally, hl, List.countP_cons] <;> omega

/-- Positive, negative and other posts partition the group. -/
theorem sentiment_countP_partition (posts : List SocialMediaPost) :
    posts.countP (fun p => decide (p.sentiment.label = .positive))
    + posts.countP (fun p => decide (p.sentiment.label = .negative))
    + posts.countP (fun p =>
        decide (p.sentiment.label ≠ .positive ∧ p.sentiment.label ≠ .negative))
    = posts.length := by
  induction posts with
  | nil => simp
  | cons p ps ih =>
    cases hl : p.sentiment.label <;>
      simp [List.countP_cons, hl] at ih ⊢ <;> omega

/-- Closed form of `analyzeSentimentDistribution`: label-count fractions and
the majority-vote overall label. -/
theorem analyzeSentimentDistribution_eq (posts : List SocialMediaPost) :
    analyzeSentimentDistribution posts =
      { positive := (posts.countP (fun p => decide (p.sentiment.label = .positive)) : ℚ)
          / posts.length
        negative := (posts.countP (fun p => decide (p.sentiment.label = .negative)) : ℚ)
          / posts.length
        neutral := (posts.countP (fun p =>
            decide (p.sentiment.label ≠ .positive ∧ p.sentiment.label ≠ .negative)) : ℚ)
          / posts.length
        overall :=
          if posts.countP (fun p => decide (p.sentiment.label = .positive)) >
             posts.countP (fun p => decide (p.sentiment.label = .negative)) then .positive
          else if posts.countP (fun p => decide (p.sentiment.label = .negative)) >
             posts.countP (fun p => decide (p.sentiment.label = .positive)) then .negative
          else .neutral } := by
  unfold analyzeSentimentDistribution
  rw [sentimentTally_foldl]
  simp

/-- C7: for a non-empty group the three sentiment fractions are the label
counts over the group size, they sum to exactly 1, and the overall label is
the majority vote between the positive and negative counts. -/
theorem sentimentDistribution_sum_one (posts : List SocialMediaPost)
    (h : posts ≠ []) :
    (analyzeSentimentDistribution posts).positive
      + (analyzeSentimentDistribution posts).negative
      + (analyzeSentimentDistribution posts).neutral = 1
    ∧ (analyzeSentimentDistribution posts).positive =
        (posts.countP (fun p => decide (p.sentiment.label = .positive)) : ℚ)
          / posts.length
    ∧ (analyzeSentimentDistribution posts).negative =
        (posts.countP (fun p => decide (p.sentiment.label = .negative)) : ℚ)
          / posts.length
    ∧ (analyzeSentimentDistribution posts).neutral =
        (posts.countP (fun p =>
          decide (p.sentiment.label ≠ .positive ∧ p.sentiment.label ≠ .negative)) : ℚ)
          / posts.length
    ∧ (analyzeSentimentDistribution posts).overall =
        (if posts.countP (fun p => decide (p.sentiment.label = .positive)) >
            posts.countP (fun p => decide (p.sentiment.label = .negative)) then .positive
         else if posts.countP (fun p => decide (p.sentiment.label = .negative)) >
            posts.countP (fun p => decide (p.sentiment.label = .positive)) then .negative
         else .neutral) := by
  rw [analyzeSentimentDistribution_eq]
  have hPNO := sentiment_countP_partition posts
  have hL : (posts.length : ℚ) ≠ 0 := by
    have hpos := List.length_pos.mpr h
    exact_mod_cast Nat.pos_iff_ne_zero.mp hpos
  refine ⟨?_, rfl, rfl, rfl, rfl⟩
  dsimp only
  rw [div_add_div_same, div_add_div_same]
  rw [div_eq_one_iff_eq hL]
  exact_mod_cast hPNO

/-- The posts that are neither positive nor negative are exactly the neutral
and the mixed ones. -/
theorem sentiment_countP_other (posts : List SocialMediaPost) :
    posts.countP (fun p =>
      decide (p.sentiment.label ≠ .positive ∧ p.sentiment.label ≠ .negative))
    = posts.countP (fun p => decide (p.sentiment.label = .neutral))
      + posts.countP (fun p => decide (p.sentiment.label = .mixed)) := by
  induction posts with
  | nil => simp
  | cons p ps ih =>
    cases hl : p.sentiment.label <;>
      simp [List.countP_cons, hl] at ih ⊢ <;> omega

/-- C9: the neutral fraction counts every post labeled neither positive nor
negative — in particular the mixed ones — and a positive/negative tie makes
the overall label neutral. -/
theorem sentimentDistribution_neutral_catchall (posts : List SocialMediaPost) :
    (analyzeSentimentDistribution posts).neutral =
      ((posts.countP (fun p => decide (p.sentiment.label = .neutral))
        + posts.countP (fun p => decide (p.sentiment.label = .mixed)) : ℕ) : ℚ)
        / posts.length
    ∧ (posts.countP (fun p => decide (p.sentiment.label = .positive)) =
        posts.countP (fun p => decide (p.sentiment.label = .negative)) →
        (analyzeSentimentDistribution posts).overall = .neutral) := by
  rw [analyzeSentimentDistribution_eq]
  constructor
  · dsimp only
    rw [sentiment_countP_other]
  · intro heq
    dsimp only
    simp [heq]

/-- A post labeled mixed, for the sentiment-distribution witnesses. -/
def mixedPost : SocialMediaPost :=
  { trendPost with sentiment := { sentimentNeutralDefault with label := .mixed } }

/-- A post labeled negative, for the sentiment-distribution witnesses. -/
def negativePost : SocialMediaPost :=
  { trendPost with sentiment := { sentimentNeutralDefault with label := .negative } }

/-- A three-post group with one positive, one negative and one mixed post:
no post is labeled neutral and the positive/negative vote ties. -/
def sentimentTiePosts : List SocialMediaPost := [mixedPost, trendPost, negativePost]

/-- Witness for C7 on the concrete three-post group. -/
theorem sentimentDistribution_sum_one_witness :
    (analyzeSentimentDistribution sentimentTiePosts).positive
      + (analyzeSentimentDistribution sentimentTiePosts).negative
      + (analyzeSentimentDistribution sentimentTiePosts).neutral = 1 :=
  (sentimentDistribution_sum_one sentimentTiePosts (by simp [sentimentTiePosts])).1

/-- Witness for C9 on the concrete three-post group: neutral fraction 1/3
from the mixed post alone, overall neutral by the tie. -/
theorem sentimentDistribution_neutral_catchall_witness :
    (analyzeSentimentDistribution sentimentTiePosts).neutral = 1/3
    ∧ (analyzeSentimentDistribution sentimentTiePosts).overall = .neutral := by
  constructor
  · rw [(sentimentDistribution_neutral_catchall sentimentTiePosts).1]
    have h1 : sentimentTiePosts.countP
        (fun p => decide (p.sentiment.label = .neutral)) = 0 := by decide
    have h2 : sentimentTiePosts.countP
        (fun p => decide (p.sentiment.label = .mixed)) = 1 := by decide
    have h3 : sentimentTiePosts.length = 3 := by decide
    rw [h1, h2, h3]
    norm_num
  · exact (sentimentDistribution_neutral_catchall sentimentTiePosts).2 (by decide)

/-! ## Retrieval & RAG orchestrator (RAGService)

The store queries (`searchPosts`, `searchTrends`, `searchCulturalContext`),
the wall clock (`Date.now()`) and the generative proxy (`fetchHuggingFace`)
are external collaborators; their responses are passed in as `RAGDeps`. -/

/-- A JavaScript `\s` whitespace character. -/
def jsWhitespace (c : Char) : Bool := c.isWhitespace

/-- State machine for `String.split(regex)` where the regex matches maximal
runs of characters satisfying `p`: `some cur` is the token accumulated since
the last separator run, `none` means we are inside a separator run (its
token has already been emitted). -/
def splitRunsAux (p : Char → Bool) : List Char → Option String → List String
  | [], some cur => [cur]
  | [], none => [""]
  | c :: cs, some cur =>
    if p c then cur :: splitRunsAux p cs none
    else splitRunsAux p cs (some (cur.push c))
  | c :: cs, none =>
    if p c then splitRunsAux p cs none
    else splitRunsAux p cs (some ("".push c))

/-- JavaScript `s.split(/X+/)`: pieces between maximal separator runs,
including the empty leading/trailing pieces JS produces (`"".split` is
`[""]`). -/
def splitRuns (p : Char → Bool) (s : String) : List String :=
  splitRunsAux p s.data (some "")

/-- `splitRunsAux` never returns the empty list. -/
theorem splitRunsAux_ne_nil (p : Char → Bool) (l : List Char)
    (st : Option String) : splitRunsAux p l st ≠ [] := by
  induction l generalizing st with
  | nil => cases st <;> simp [splitRunsAux]
  | cons c cs ih =>
    cases st <;> simp only [splitRunsAux] <;> split <;> simp [ih]

/-- A split never yields the empty list (JS `split` always returns at least
one piece). -/
theorem splitRuns_ne_nil (p : Char → Bool) (s : String) : splitRuns p s ≠ [] :=
  splitRunsAux_ne_nil p s.data (some "")

/-- `strStarts needle hay`: `needle` is a leading piece of `hay`. -/
def strStarts : List Char → List Char → Bool
  | [], _ => true
  | _ :: _, [] => false
  | a :: as, b :: bs => a = b && strStarts as bs

/-- Character-list core of JavaScript `hay.includes(needle)`. -/
def strIncludesL (needle : List Char) : List Char → Bool
  | [] => strStarts needle []
  | c :: cs => strStarts needle (c :: cs) || strIncludesL needle cs

/-- JavaScript `hay.includes(needle)`. -/
def strIncludes (hay needle : String) : Bool := strIncludesL needle.data hay.data

/-- Every string includes the empty string. -/
theorem strIncludes_empty (hay : String) : strIncludes hay "" = true := by
  unfold strIncludes
  cases hay.data <;> simp [strIncludesL, strStarts]

/-- Embeds `calculateRelevance(query, content)`: the fraction of lowercase
whitespace-split query words that substring-match (either direction) some
content word. -/
def calculateRelevance (query content : String) : ℚ :=
  let queryWords := splitRuns jsWhitespace (jsToLower query)
  let contentWords := splitRuns jsWhitespace (jsToLower content)
  let matchCount := queryWords.countP (fun queryWord =>
    contentWords.any (fun word => strIncludes word queryWord
      || strIncludes queryWord word))
  (matchCount : ℚ) / (queryWords.length : ℚ)

/-- Closed form of `calculateRelevance`, shared by the proofs below. -/
theorem calculateRelevance_eq (query content : String) :
    calculateRelevance query content =
      ((splitRuns jsWhitespace (jsToLower query)).countP (fun queryWord =>
        (splitRuns jsWhitespace (jsToLower content)).any (fun word =>
          strIncludes word queryWord || strIncludes queryWord word)) : ℚ)
      / ((splitRuns jsWhitespace (jsToLower query)).length : ℚ) := rfl

/-- C5: the relevance equals the number of query words substring-matching
some content word divided by the query word count, and lies in [0,1]. -/
theorem calculateRelevance_spec (query content : String) :
    calculateRelevance query content =
      ((splitRuns jsWhitespace (jsToLower query)).countP (fun queryWord =>
        (splitRuns jsWhitespace (jsToLower content)).any (fun word =>
          strIncludes word queryWord || strIncludes queryWord word)) : ℚ)
      / ((splitRuns jsWhitespace (jsToLower query)).length : ℚ)
    ∧ 0 ≤ calculateRelevance query content
    ∧ calculateRelevance query content ≤ 1 := by
  have hlen : 0 < (splitRuns jsWhitespace (jsToLower query)).length :=
    List.length_pos.mpr (splitRuns_ne_nil _ _)
  have hlenQ : (0 : ℚ) < ((splitRuns jsWhitespace (jsToLower query)).length : ℚ) := by
    exact_mod_cast hlen
  refine ⟨calculateRelevance_eq query content, ?_, ?_⟩
  · rw [calculateRelevance_eq]
    exact div_nonneg (Nat.cast_nonneg _) (Nat.cast_nonneg _)
  · rw [calculateRelevance_eq, div_le_one hlenQ]
    exact_mod_cast List.countP_le_length _

/-- C10: the empty query tokenizes to the single empty word, which every
content word includes, so every candidate gets relevance exactly 1. -/
theorem calculateRelevance_empty_query (content : String) :
    calculateRelevance "" content = 1 := by
  rw [calculateRelevance_eq]
  have hq : splitRuns jsWhitespace (jsToLower "") = [""] := rfl
  rw [hq]
  rcases hcw : splitRuns jsWhitespace (jsToLower content) with _ | ⟨w, ws⟩
  · exact absurd hcw (splitRuns_ne_nil _ _)
  · simp [List.countP_cons, List.any_cons, strIncludes_empty]

/-- JavaScript `s.trim()`: strip whitespace from both ends. -/
def jsTrim (s : String) : String :=
  ⟨((s.data.dropWhile fun c => c.isWhitespace).reverse.dropWhile
    (fun c => c.isWhitespace)).reverse⟩

/-- Embeds `generateSummary(content)`: the first two sentences (split on
runs of `.!?`, dropping whitespace-only pieces), re-joined and dotted. -/
def generateSummary (content : String) : String :=
  let sentences := (splitRuns (fun c => c = '.' || c = '!' || c = '?') content).filter
    (fun s => 0 < (jsTrim s).length)
  String.intercalate ". " (sentences.take 2) ++ "."

/-- Embeds `extractKeyInsights(post)`: the threshold rules appending insight
tags. -/
def extractKeyInsights (post : SocialMediaPost) : List String :=
  (if post.viralityScore > 7/10 then ["High virality potential"] else [])
  ++ (if post.sentiment.label = .positive ∧ post.sentiment.score > 5/10 then
      ["Strong positive sentiment"] else [])
  ++ (if post.metadata.hashtags.length > 3 then ["Multiple trending hashtags"] else [])
  ++ (if post.engagement.likes + post.engagement.shares + post.engagement.comments
        > 1000 then ["High engagement rate"] else [])

/-- The fields of a stored trend row read by the retrieval layer (the
`trends` table roundtrips the Trend entity; only the read fields are kept,
with `viralityFactorCount` standing for `viralityFactors.length`). -/
structure StoredTrend where
  id : String
  topic : String
  mentions : ℕ
  engagement : ℕ
  growthRate : ℚ
  velocity : ℚ
  sentimentOverall : SentimentLabel
  sentimentPositive : ℚ
  relatedTopics : List String
  viralityFactorCount : ℕ
deriving DecidableEq, Repr

/-- Embeds `extractTrendInsights(trend)`. -/
def extractTrendInsights (trend : StoredTrend) : List String :=
  (if trend.growthRate > 10 then ["Rapid growth trend"] else [])
  ++ (if trend.velocity > 500 then ["High engagement velocity"] else [])
  ++ (if trend.sentimentOverall = .positive ∧ trend.sentimentPositive > 6/10 then
      ["Predominantly positive sentiment"] else [])
  ++ (if trend.viralityFactorCount > 0 then
      [toString trend.viralityFactorCount ++ " virality factors identified"] else [])

/-- A cultural-context store record (fields read by retrieval). -/
structure CulturalContext where
  id : String
  topic : String
  description : String
  relevance : ℚ
  relatedEvents : List String
deriving DecidableEq, Repr

/-- Embeds `extractContextInsights(context)`. -/
def extractContextInsights (context : CulturalContext) : List String :=
  (if context.relevance > 8/10 then ["Highly relevant cultural context"] else [])
  ++ (if context.relatedEvents.length > 0 then
      [toString context.relatedEvents.length ++ " related events"] else [])

/-- The source record a retrieval hit points at. -/
inductive RAGSource
  | post (p : SocialMediaPost)
  | trend (t : StoredTrend)
  | context (c : CulturalContext)
deriving DecidableEq, Repr

/-- `RAGResult`: one ranked retrieval hit. -/
structure RAGResult where
  id : String
  content : String
  source : RAGSource
  relevance : ℚ
  confidence : ℚ
  summary : String
  keyInsights : List String
  relatedContent : List String
deriving DecidableEq, Repr

/-- `QueryFilters` (`{}` in the source is the all-defaults record). -/
structure QueryFilters where
  platforms : List String := []
  categories : List String := []
  dateRange : Option (ℤ × ℤ) := none
  minEngagement : Option ℕ := none
deriving DecidableEq, Repr

/-- `RAGQuery.metadata`. -/
structure RAGMetadata where
  searchTime : ℤ
  totalResults : ℕ
  filters : QueryFilters
deriving DecidableEq, Repr

/-- `RAGQuery` (the generated `createdAt` timestamp is elided). -/
structure RAGQuery where
  id : String
  query : String
  results : List RAGResult
  metadata : RAGMetadata
deriving DecidableEq, Repr

/-- The external collaborators of one `RAGService.query` call: the rows the
three store searches return (the store applies the filters), the response of
the `fetchHuggingFace` generative proxy, and the two `Date.now()` readings. -/
structure RAGDeps where
  storedPosts : List SocialMediaPost
  storedTrends : List StoredTrend
  storedContexts : List CulturalContext
  genResponse : List RAGResult
  startTime : ℤ
  endTime : ℤ

/-- Descending insertion by relevance, modelling
`results.sort((a, b) => b.relevance - a.relevance)`. -/
def insertByRelevance (r : RAGResult) : List RAGResult → List RAGResult
  | [] => [r]
  | u :: us =>
    if r.relevance > u.relevance then r :: u :: us
    else u :: insertByRelevance r us

/-- Sort a result list by descending relevance. -/
def sortByRelevanceDesc (l : List RAGResult) : List RAGResult :=
  l.foldr insertByRelevance []

/-- Embeds `retrieveContent(query, filters)`: build one annotated hit per
post, trend and context row, merge, sort by descending relevance and keep
the top 10. -/
def retrieveContent (deps : RAGDeps) (query : String) : List RAGResult :=
  let postResults := deps.storedPosts.map (fun post =>
    { id := "post_" ++ post.id
      content := post.content
      source := .post post
      relevance := calculateRelevance query post.content
      confidence := 8/10
      summary := generateSummary post.content
      keyInsights := extractKeyInsights post
      relatedContent := post.metadata.hashtags })
  let trendResults := deps.storedTrends.map (fun trend =>
    { id := "trend_" ++ trend.id
      content := trend.topic ++ ": " ++ toString trend.mentions ++ " mentions, "
        ++ toString trend.engagement ++ " engagement"
      source := .trend trend
      relevance := calculateRelevance query trend.topic
      confidence := 9/10
      summary := "Trending topic \"" ++ trend.topic ++ "\" with "
        ++ toString trend.mentions ++ " mentions"
      keyInsights := extractTrendInsights trend
      relatedContent := trend.relatedTopics })
  let contextResults := deps.storedContexts.map (fun context =>
    { id := "context_" ++ context.id
      content := context.description
      source := .context context
      relevance := calculateRelevance query context.description
      confidence := 85/100
      summary := context.description
      keyInsights := extractContextInsights context
      relatedContent := context.relatedEvents })
  (sortByRelevanceDesc (postResults ++ trendResults ++ contextResults)).take 10

/-- Embeds `generateInsights(query, results)`: it calls the Hugging Face
proxy on the query text and returns that response, ignoring the `results`
argument it was handed. -/
def generateInsights (deps : RAGDeps) (query : String)
    (results : List RAGResult) : List RAGResult :=
  deps.genResponse

namespace RAGService

/-- Embeds `RAGService.query(query, filters)` (the `catch` branch rethrows,
so the happy path is total here). The second component records whether the
store-persistence collaborator (`saveQuery`) was invoked during the call —
the source never calls it inside `query`, hence `false`. The generated id
interpolates the second `Date.now()` reading. -/
def query (deps : RAGDeps) (queryText : String) (filters : Option QueryFilters) :
    RAGQuery × Bool :=
  let results := retrieveContent deps queryText
  let enhancedResults := generateInsights deps queryText results
  let searchTime := deps.endTime - deps.startTime
  ({ id := "query_" ++ toString deps.endTime
     query := queryText
     results := enhancedResults
     metadata := { searchTime := searchTime
                   totalResults := enhancedResults.length
                   filters := filters.getD {} } },
   false)

end RAGService

/-- What one `query` call actually returns, component by component: the
results field is the generative proxy's response, the retrieval set is
discarded, and no persistence happens. Shared helper. -/
theorem ragQuery_components (deps : RAGDeps) (queryText : String)
    (filters : Option QueryFilters) :
    (RAGService.query deps queryText filters).1.results = deps.genResponse
    ∧ (RAGService.query deps queryText filters).1.query = queryText
    ∧ (RAGService.query deps queryText filters).1.metadata.searchTime
        = deps.endTime - deps.startTime
    ∧ (RAGService.query deps queryText filters).1.metadata.totalResults
        = deps.genResponse.length
    ∧ (RAGService.query deps queryText filters).1.metadata.filters
        = filters.getD {}
    ∧ (RAGService.query deps queryText filters).2 = false :=
  ⟨rfl, rfl, rfl, rfl, rfl, rfl⟩

/-- A store row whose content matches the counterexample query. -/
def helloPost : SocialMediaPost :=
  { trendPost with id := "h1", content := "hello" }

/-- Collaborator responses for the C4 counterexample: the post store returns
one matching post, the generative proxy returns an empty response. -/
def ragDepsCex : RAGDeps :=
  { storedPosts := [helloPost]
    storedTrends := []
    storedContexts := []
    genResponse := []
    startTime := 0
    endTime := 5 }

/-- C4 counterexample: with a non-empty retrieval set and an empty proxy
response, the returned `results` is empty — it is the proxy response, not
the ranked retrieval set — and the record is not persisted by `query`. -/
theorem ragQuery_results_cex :
    (RAGService.query ragDepsCex "hello" none).1.results = []
    ∧ retrieveContent ragDepsCex "hello" ≠ []
    ∧ (RAGService.query ragDepsCex "hello" none).1.results
        ≠ retrieveContent ragDepsCex "hello"
    ∧ (RAGService.query ragDepsCex "hello" none).2 = false := by
  have h1 : (RAGService.query ragDepsCex "hello" none).1.results = [] := rfl
  have h2 : retrieveContent ragDepsCex "hello" ≠ [] := by
    simp [retrieveContent, ragDepsCex, sortByRelevanceDesc, insertByRelevance]
  exact ⟨h1, h2, by rw [h1]; exact fun h => h2 h.symm, rfl⟩

/-- C4 amended: `query` wraps the generative proxy's response (not the
ranked retrieval set, which it computes and discards) together with the
elapsed search time, the response length and the applied filters (default
`{}`), and does not itself persist the record — persistence via `saveQuery`
is left to the caller. -/
theorem ragQuery_amended (deps : RAGDeps) (queryText : String)
    (filters : Option QueryFilters) :
    (RAGService.query deps queryText filters).1.results = deps.genResponse
    ∧ (RAGService.query deps queryText filters).1.query = queryText
    ∧ (RAGService.query deps queryText filters).1.metadata.searchTime
        = deps.endTime - deps.startTime
    ∧ (RAGService.query deps queryText filters).1.metadata.totalResults
        = deps.genResponse.length
    ∧ (RAGService.query deps queryText filters).1.metadata.filters
        = filters.getD {}
    ∧ (RAGService.query deps queryText filters).2 = false :=
  ragQuery_components deps queryText filters
